import Mathlib

/-!
Shallow embedding of `InvenTree/label/models.py` (label printing models).

Pure Lean counterparts of the label-template data model and its
operations: per-subtype context assembly (`get_context_data`), the
combined context mapping (`context`, with universal keys and plugin
contributions), filename generation, rendering, upload-path renaming,
and the field validators.  Python dictionaries are modelled as
association lists with replace-on-set semantics; the external template
engine is modelled on pre-tokenised template strings; machine floats
(label width and height) are modelled as rationals.
-/

namespace LabelModels

/-- The parsed form of a template string fed to the template engine
(`django.template.Template`).  A variable token renders as the context
value under that name, or as the empty string when the name is absent
(Django's default `string_if_invalid` is the empty string). -/
inductive TemplateToken where
  | text (s : String)
  | var (v : String)
deriving DecidableEq

/-- A point in time, as supplied by `datetime.datetime.now()`:
`days` identifies the current date, `secs` the time of day. -/
structure DateTime where
  days : Nat
  secs : Nat
deriving DecidableEq

/-- The date component of a timestamp (`datetime.datetime.now().date()`). -/
def DateTime.date (dt : DateTime) : Nat := dt.days

/-- Modelled from the spec: the web framework's request object (an
external collaborator, excluded from the spec's scope).  It carries the
acting user and the absolute-URI base used by `build_absolute_uri`. -/
structure Request where
  user : String
  scheme_host : String
deriving DecidableEq

/-- Modelled from the spec: `request.build_absolute_uri(path)` resolves a
path against the serving application's base URL. -/
def Request.build_absolute_uri (r : Request) (path : String) : String :=
  r.scheme_host ++ path

/-- Modelled from the spec: `InvenTree.helpers_model.get_base_url` returns
the base URL of the serving application for the given request. -/
def get_base_url (r : Request) : String :=
  r.scheme_host

/-- Modelled from the spec: `InvenTree.helpers.normalize` rewrites a
decimal quantity to a canonical form (stripping trailing zeros) without
changing its numeric value; on rationals it is therefore the identity. -/
def normalize (q : ℚ) : ℚ := q

/-- Modelled from the spec: the fields of `part.models.Part` read during
label context assembly. -/
structure PartObj where
  full_name : String
  name : String
  description : String
  IPN : String
  revision : String
  category : String
  format_barcode_brief : String
  absolute_url : String
  parameters_map : List (String × String)
deriving DecidableEq

/-- Modelled from the spec: the fields of `stock.models.StockItem` read
during label context assembly. -/
structure StockItemObj where
  part : PartObj
  quantity : ℚ
  serial : String
  barcode_data : String
  barcode_hash : String
  format_barcode_brief : String
  absolute_url : String
  testResultMap : List (String × String)
deriving DecidableEq

/-- Modelled from the spec: the fields of `stock.models.StockLocation`
read during label context assembly. -/
structure StockLocationObj where
  name : String
  format_barcode_brief : String
deriving DecidableEq

/-- Modelled from the spec: the fields of a BOM item
(`part.models.BomItem`) read during label context assembly. -/
structure BomItemObj where
  sub_part : PartObj
  reference : String
deriving DecidableEq

/-- Modelled from the spec: the fields of `build.models.BuildLine` read
during label context assembly. -/
structure BuildLineObj where
  build : String
  bom_item : BomItemObj
  quantity : ℚ
  allocated_quantity : ℚ
  allocations : String
deriving DecidableEq

/-- The domain object a label template instance is bound to
(`object_to_print`), one of the four supported entity types. -/
inductive ObjectToPrint where
  | stockItem (s : StockItemObj)
  | stockLocation (l : StockLocationObj)
  | part (p : PartObj)
  | buildLine (b : BuildLineObj)
deriving DecidableEq

/-- A value stored in the template context dictionary. -/
inductive CtxVal where
  | str (s : String)
  | num (q : ℚ)
  | dateVal (d : Nat)
  | datetimeVal (dt : DateTime)
  | requestVal (r : Request)
  | userVal (u : String)
  | itemVal (s : StockItemObj)
  | partVal (p : PartObj)
  | locationVal (l : StockLocationObj)
  | buildLineVal (b : BuildLineObj)
  | buildVal (b : String)
  | bomItemVal (bi : BomItemObj)
  | categoryVal (c : String)
  | mapVal (m : List (String × String))
  | allocationsVal (a : String)
deriving DecidableEq

/-- The context dictionary: an association list of names to values. -/
abbrev Ctx := List (String × CtxVal)

/-- Python dictionary assignment `d[k] = v`: replace the value under an
existing key, or append a new entry. -/
def setKey : Ctx → String → CtxVal → Ctx
  | [], k, v => [(k, v)]
  | (k0, v0) :: rest, k, v =>
      if k0 = k then (k, v) :: rest else (k0, v0) :: setKey rest k v

/-- Python dictionary lookup `d[k]`: the value stored under `k`, if any. -/
def lookupKey : Ctx → String → Option CtxVal
  | [], _ => none
  | (k0, v0) :: rest, k => if k0 = k then some v0 else lookupKey rest k

/-- The display form of a context value when substituted into a template
string (Python `str()`). -/
def ratDisplay (q : ℚ) : String :=
  if q.den = 1 then toString q.num else toString q.num ++ "/" ++ toString q.den

/-- Render a context value to text for template substitution. -/
def CtxVal.toDisplay : CtxVal → String
  | .str s => s
  | .num q => ratDisplay q
  | .dateVal d => "day " ++ toString d
  | .datetimeVal dt => "day " ++ toString dt.days ++ " sec " ++ toString dt.secs
  | .requestVal r => r.scheme_host
  | .userVal u => u
  | .itemVal s => s.serial
  | .partVal p => p.full_name
  | .locationVal l => l.name
  | .buildLineVal b => b.build
  | .buildVal b => b
  | .bomItemVal bi => bi.reference
  | .categoryVal c => c
  | .mapVal _ => "map"
  | .allocationsVal a => a

/-- Render one template token against a context: literal text is kept,
a variable is replaced by its display form, an undefined variable by the
empty string. -/
def renderToken (c : Ctx) : TemplateToken → String
  | .text s => s
  | .var v =>
      match lookupKey c v with
      | some val => val.toDisplay
      | none => ""

/-- Render a tokenised template string against a context. -/
def renderTemplate : List TemplateToken → Ctx → String
  | [], _ => ""
  | tok :: rest, c => renderToken c tok ++ renderTemplate rest c

/-- The four concrete label subtypes. -/
inductive LabelKind where
  | stockItem
  | stockLocation
  | part
  | buildLine
deriving DecidableEq

/-- The per-subtype subdirectory tag (`SUBDIR`) used to organise uploaded
template files. -/
def LabelKind.SUBDIR : LabelKind → String
  | .stockItem => "stockitem"
  | .stockLocation => "stocklocation"
  | .part => "part"
  | .buildLine => "buildline"

/-- A label template instance: the abstract base fields of
`LabelTemplate` plus the subtype tag and the caller-supplied bound
object.  `templateBody` is the parsed content of the uploaded template
file referenced by `label`; `filename_pattern` is stored parsed for the
same reason. -/
structure LabelTemplate where
  kind : LabelKind
  name : String
  description : String
  label : String
  enabled : Bool
  width : ℚ
  height : ℚ
  filename_pattern : List TemplateToken
  templateBody : List TemplateToken
  object_to_print : Option ObjectToPrint
deriving DecidableEq

/-- `str(s)` begins with a path separator. -/
def startsWithSlash (s : String) : Bool :=
  match s.toList with
  | [] => false
  | c :: _ => c = '/'

/-- `str(s)` ends with a path separator. -/
def endsWithSlash (s : String) : Bool :=
  match s.toList.getLast? with
  | some c => c = '/'
  | none => false

/-- `os.path.basename`: the part of the path after the final separator. -/
def basename (filename : String) : String :=
  String.mk ((filename.toList.reverse.takeWhile (fun c => c != '/')).reverse)

/-- `os.path.join` for one extra component (POSIX semantics): an absolute
component replaces the path so far; otherwise the component is appended,
inserting a separator when needed. -/
def osJoin (a b : String) : String :=
  if startsWithSlash b then b
  else if a = "" || endsWithSlash a then a ++ b
  else a ++ "/" ++ b

/-- `rename_label`: place the uploaded label file into the correct
subdirectory, stripping the incoming filename to its base name. -/
def rename_label (k : LabelKind) (filename : String) : String :=
  osJoin (osJoin (osJoin "label" "template") k.SUBDIR) (basename filename)

/-- Split a character list on a separator (Python `str.split(sep)`). -/
def splitChars (sep : Char) : List Char → List Char → List (List Char)
  | [], acc => [acc.reverse]
  | c :: rest, acc =>
      if c = sep then acc.reverse :: splitChars sep rest []
      else splitChars sep rest (c :: acc)

/-- Python `s.split(sep)` for a one-character separator. -/
def pySplit (sep : Char) (s : String) : List String :=
  (splitChars sep s.toList []).map String.mk

/-- An ASCII whitespace character (Python `str.strip` default set). -/
def isSpaceChar (c : Char) : Bool :=
  c = ' ' || c = '\t' || c = '\n' || c = '\r'

/-- Python `s.strip()`: drop whitespace from both ends. -/
def pyStrip (s : String) : String :=
  String.mk (((s.toList.dropWhile isSpaceChar).reverse.dropWhile isSpaceChar).reverse)

/-- Lower-case an ASCII letter, leaving other characters unchanged. -/
def lowerChar (c : Char) : Char :=
  if 'A' ≤ c && c ≤ 'Z' then Char.ofNat (c.toNat + 32) else c

/-- Python `s.lower()` (ASCII range). -/
def pyLower (s : String) : String :=
  String.mk (s.toList.map lowerChar)

/-- Modelled from the spec: one step of
`InvenTree.helpers.validateFilterString` on a comma-separated group.
Returns the offending token when the group is not a well-formed
`key=value` pair, or when its key does not name a valid filterable field
of the bound entity type; returns `none` when the group is acceptable. -/
def badKeyOf (fields : List String) (g : String) : Option String :=
  match pySplit '=' g with
  | [k, _v] => if fields.contains (pyStrip k) then none else some (pyStrip k)
  | _ => some g

/-- Modelled from the spec: `InvenTree.helpers.validateFilterString`
parses the filter string as comma-separated `key=value` pairs, fails with
a validation error identifying the first offending key (or unparseable
group), and otherwise returns the normalized filter string unchanged. -/
def validateFilterString (fields : List String) (s : String) : Except String String :=
  match (pySplit ',' s).findSome? (badKeyOf fields) with
  | none => Except.ok s
  | some k => Except.error k

/-- Modelled from the spec: a sample of the queryable field set of
`stock.models.StockItem` (the exact set lives in the entity model, out of
scope here). -/
def stockItemFields : List String :=
  ["part", "location", "quantity", "serial", "batch", "status"]

/-- Modelled from the spec: a sample of the queryable field set of
`stock.models.StockLocation`. -/
def stockLocationFields : List String :=
  ["name", "structural"]

/-- Modelled from the spec: a sample of the queryable field set of
`part.models.Part`. -/
def partFields : List String :=
  ["name", "IPN", "category", "active"]

/-- Modelled from the spec: a sample of the queryable field set of
`build.models.BuildLine`. -/
def buildLineFields : List String :=
  ["build", "quantity"]

/-- Validate query filters for the StockItemLabel model. -/
def validate_stock_item_filters (s : String) : Except String String :=
  validateFilterString stockItemFields s

/-- Validate query filters for the StockLocationLabel model. -/
def validate_stock_location_filters (s : String) : Except String String :=
  validateFilterString stockLocationFields s

/-- Validate query filters for the PartLabel model. -/
def validate_part_filters (s : String) : Except String String :=
  validateFilterString partFields s

/-- Validate query filters for the BuildLineLabel model. -/
def validate_build_line_filters (s : String) : Except String String :=
  validateFilterString buildLineFields s

/-- Django's `MinValueValidator(limit)`: a value passes exactly when it
is at least the limit. -/
def MinValueValidatorPasses (limit v : ℚ) : Bool :=
  decide (limit ≤ v)

/-- The validator list attached to the `width` field
(`MinValueValidator(2)`). -/
def widthValidators : List (ℚ → Bool) := [MinValueValidatorPasses 2]

/-- The validator list attached to the `height` field
(`MinValueValidator(2)`). -/
def heightValidators : List (ℚ → Bool) := [MinValueValidatorPasses 2]

/-- Run the dimension validators of a label template, collecting the
names of the fields whose validators fail (Django's field-scoped
validation errors). -/
def dimensionErrors (t : LabelTemplate) : List String :=
  (if widthValidators.all (fun f => f t.width) then [] else ["width"]) ++
    (if heightValidators.all (fun f => f t.height) then [] else ["height"])

/-- The filename extension: the part after the final dot, or the empty
string when the name has no dot (Python `Path(name).suffix` without the
leading dot). -/
def fileExtension (f : String) : String :=
  if f.toList.contains '.' then
    String.mk ((f.toList.reverse.takeWhile (fun c => c != '.')).reverse)
  else ""

/-- Django's `FileExtensionValidator(allowed_extensions)`: a filename
passes when the allowed list is empty or its lower-cased extension is in
the list. -/
def FileExtensionValidatorPasses (allowed : List String) (f : String) : Bool :=
  allowed.isEmpty || allowed.contains (pyLower (fileExtension f))

/-- The validator attached to the `label` file field:
`FileExtensionValidator(allowed_extensions=['html'])`. -/
def labelFileValidatorPasses (f : String) : Bool :=
  FileExtensionValidatorPasses ["html"] f

/-- `get_context_data`: the entity-specific context fields supplied by
the subtype's hook, a pure function of the bound object (and the
request, for absolute URIs).  `none` models the attribute-resolution
failure raised when `object_to_print` is unset or of the wrong type
(spec precondition). -/
def LabelTemplate.get_context_data (t : LabelTemplate) (request : Request) : Option Ctx :=
  match t.kind, t.object_to_print with
  | .stockItem, some (.stockItem s) => some
      [("item", CtxVal.itemVal s),
       ("part", CtxVal.partVal s.part),
       ("name", CtxVal.str s.part.full_name),
       ("ipn", CtxVal.str s.part.IPN),
       ("revision", CtxVal.str s.part.revision),
       ("quantity", CtxVal.num (normalize s.quantity)),
       ("serial", CtxVal.str s.serial),
       ("barcode_data", CtxVal.str s.barcode_data),
       ("barcode_hash", CtxVal.str s.barcode_hash),
       ("qr_data", CtxVal.str s.format_barcode_brief),
       ("qr_url", CtxVal.str (request.build_absolute_uri s.absolute_url)),
       ("tests", CtxVal.mapVal s.testResultMap),
       ("parameters", CtxVal.mapVal s.part.parameters_map)]
  | .stockLocation, some (.stockLocation l) => some
      [("location", CtxVal.locationVal l),
       ("qr_data", CtxVal.str l.format_barcode_brief)]
  | .part, some (.part p) => some
      [("part", CtxVal.partVal p),
       ("category", CtxVal.categoryVal p.category),
       ("name", CtxVal.str p.name),
       ("description", CtxVal.str p.description),
       ("IPN", CtxVal.str p.IPN),
       ("revision", CtxVal.str p.revision),
       ("qr_data", CtxVal.str p.format_barcode_brief),
       ("qr_url", CtxVal.str (request.build_absolute_uri p.absolute_url)),
       ("parameters", CtxVal.mapVal p.parameters_map)]
  | .buildLine, some (.buildLine b) => some
      [("build_line", CtxVal.buildLineVal b),
       ("build", CtxVal.buildVal b.build),
       ("bom_item", CtxVal.bomItemVal b.bom_item),
       ("part", CtxVal.partVal b.bom_item.sub_part),
       ("quantity", CtxVal.num b.quantity),
       ("allocated_quantity", CtxVal.num b.allocated_quantity),
       ("allocations", CtxVal.allocationsVal b.allocations)]
  | _, _ => none

/-- Modelled from the spec: a plugin registered with the report mixin
(`plugin.registry.registry.with_mixin('report')`).  Its
`add_label_context(template, object, request, context)` hook may mutate
the context dictionary arbitrarily, modelled as a function on contexts. -/
structure ReportPlugin where
  add_label_context :
    LabelTemplate → Option ObjectToPrint → Request → Ctx → Ctx

/-- The seven universal ("basic") assignments performed by `context`
after the subtype hook has produced the entity-specific mapping, in
source order: `base_url`, `date`, `datetime`, `request`, `user`,
`width`, `height`. -/
def addUniversalKeys (t : LabelTemplate) (request : Request) (now : DateTime)
    (c : Ctx) : Ctx :=
  setKey (setKey (setKey (setKey (setKey (setKey (setKey c
    "base_url" (CtxVal.str (get_base_url request)))
    "date" (CtxVal.dateVal now.date))
    "datetime" (CtxVal.datetimeVal now))
    "request" (CtxVal.requestVal request))
    "user" (CtxVal.userVal request.user))
    "width" (CtxVal.num t.width))
    "height" (CtxVal.num t.height)

/-- `context`: entity-specific fields from the subtype hook, then the
universal assignments, then every registered report plugin invoked in
registration order with the template, the bound object, the request and
the context mapping. -/
def LabelTemplate.context (t : LabelTemplate) (request : Request) (now : DateTime)
    (registry : List ReportPlugin) : Option Ctx :=
  match t.get_context_data request with
  | none => none
  | some c =>
      some (registry.foldl
        (fun acc plugin => plugin.add_label_context t t.object_to_print request acc)
        (addUniversalKeys t request now c))

/-- `generate_filename`: render the stored filename pattern against the
full context mapping. -/
def LabelTemplate.generate_filename (t : LabelTemplate) (request : Request)
    (now : DateTime) (registry : List ReportPlugin) : Option String :=
  (t.context request now registry).map (fun c => renderTemplate t.filename_pattern c)

/-- `render_as_string`: render the uploaded template file against the
full context mapping, producing the HTML text. -/
def LabelTemplate.render_as_string (t : LabelTemplate) (request : Request)
    (now : DateTime) (registry : List ReportPlugin) : Option String :=
  (t.context request now registry).map (fun c => renderTemplate t.templateBody c)

/-! ### Helper lemmas -/

theorem lookupKey_setKey (c : Ctx) (k k2 : String) (v : CtxVal) :
    lookupKey (setKey c k v) k2 = if k2 = k then some v else lookupKey c k2 := by
  induction c with
  | nil =>
      simp only [setKey, lookupKey]
      by_cases h : k = k2
      · subst h; simp
      · rw [if_neg h, if_neg (fun h2 => h h2.symm)]
  | cons hd tl ih =>
      obtain ⟨k0, v0⟩ := hd
      simp only [setKey]
      by_cases h0 : k0 = k
      · subst h0
        simp only [lookupKey]
        by_cases h : k0 = k2
        · subst h; simp
        · rw [if_neg h, if_neg h, if_neg (fun h2 => h h2.symm)]
      · rw [if_neg h0]
        simp only [lookupKey]
        by_cases h1 : k0 = k2
        · subst h1
          rw [if_pos rfl, if_neg h0, if_pos rfl]
        · rw [if_neg h1, if_neg h1, ih]

theorem renderTemplate_append (l1 l2 : List TemplateToken) (c : Ctx) :
    renderTemplate (l1 ++ l2) c = renderTemplate l1 c ++ renderTemplate l2 c := by
  induction l1 with
  | nil =>
      show renderTemplate l2 c = "" ++ renderTemplate l2 c
      rfl
  | cons tok rest ih =>
      show renderToken c tok ++ renderTemplate (rest ++ l2) c =
        (renderToken c tok ++ renderTemplate rest c) ++ renderTemplate l2 c
      rw [ih, String.append_assoc]

theorem findSome?_eq_none_of_all_none {α β : Type} (f : α → Option β) (l : List α)
    (h : ∀ a ∈ l, f a = none) : l.findSome? f = none := by
  induction l with
  | nil => rfl
  | cons a rest ih =>
      rw [List.findSome?_cons, h a (by simp)]
      exact ih (fun x hx => h x (by simp [hx]))

theorem exists_of_findSome?_eq_some {α β : Type} {f : α → Option β} {l : List α} {b : β}
    (h : l.findSome? f = some b) : ∃ a, a ∈ l ∧ f a = some b := by
  induction l with
  | nil => simp [List.findSome?_nil] at h
  | cons a rest ih =>
      rw [List.findSome?_cons] at h
      cases hfa : f a with
      | some b2 =>
          rw [hfa] at h
          exact ⟨a, by simp, by rw [hfa]; exact h⟩
      | none =>
          rw [hfa] at h
          obtain ⟨x, hx, hfx⟩ := ih h
          exact ⟨x, by simp [hx], hfx⟩

theorem contains_singleton (x y : String) : ([y].contains x) = (x == y) := by
  cases h : x == y <;> simp [List.contains, List.elem, h]

/-- A plugin whose contribution leaves the `width` and `height` entries of
the context dictionary untouched (it may write any other key). -/
def PluginPreservesDims (p : ReportPlugin) : Prop :=
  ∀ (t : LabelTemplate) (obj : Option ObjectToPrint) (request : Request) (c : Ctx),
    lookupKey (p.add_label_context t obj request c) "width" = lookupKey c "width" ∧
    lookupKey (p.add_label_context t obj request c) "height" = lookupKey c "height"

theorem foldl_plugins_preserve (t : LabelTemplate) (request : Request)
    (registry : List ReportPlugin) (c : Ctx)
    (hp : ∀ p ∈ registry, PluginPreservesDims p) :
    lookupKey (registry.foldl
      (fun acc plugin => plugin.add_label_context t t.object_to_print request acc) c)
      "width" = lookupKey c "width" ∧
    lookupKey (registry.foldl
      (fun acc plugin => plugin.add_label_context t t.object_to_print request acc) c)
      "height" = lookupKey c "height" := by
  induction registry generalizing c with
  | nil => exact ⟨rfl, rfl⟩
  | cons p rest ih =>
      simp only [List.foldl_cons]
      have h1 := hp p (by simp) t t.object_to_print request c
      have h2 := ih (p.add_label_context t t.object_to_print request c)
        (fun q hq => hp q (by simp [hq]))
      exact ⟨by rw [h2.1, h1.1], by rw [h2.2, h1.2]⟩

theorem lookup_addUniversalKeys_base_url (t : LabelTemplate) (request : Request)
    (now : DateTime) (c : Ctx) :
    lookupKey (addUniversalKeys t request now c) "base_url" =
      some (CtxVal.str (get_base_url request)) := by
  simp [addUniversalKeys, lookupKey_setKey]

theorem lookup_addUniversalKeys_date (t : LabelTemplate) (request : Request)
    (now : DateTime) (c : Ctx) :
    lookupKey (addUniversalKeys t request now c) "date" =
      some (CtxVal.dateVal now.date) := by
  simp [addUniversalKeys, lookupKey_setKey]

theorem lookup_addUniversalKeys_datetime (t : LabelTemplate) (request : Request)
    (now : DateTime) (c : Ctx) :
    lookupKey (addUniversalKeys t request now c) "datetime" =
      some (CtxVal.datetimeVal now) := by
  simp [addUniversalKeys, lookupKey_setKey]

theorem lookup_addUniversalKeys_request (t : LabelTemplate) (request : Request)
    (now : DateTime) (c : Ctx) :
    lookupKey (addUniversalKeys t request now c) "request" =
      some (CtxVal.requestVal request) := by
  simp [addUniversalKeys, lookupKey_setKey]

theorem lookup_addUniversalKeys_user (t : LabelTemplate) (request : Request)
    (now : DateTime) (c : Ctx) :
    lookupKey (addUniversalKeys t request now c) "user" =
      some (CtxVal.userVal request.user) := by
  simp [addUniversalKeys, lookupKey_setKey]

theorem lookup_addUniversalKeys_width (t : LabelTemplate) (request : Request)
    (now : DateTime) (c : Ctx) :
    lookupKey (addUniversalKeys t request now c) "width" =
      some (CtxVal.num t.width) := by
  simp [addUniversalKeys, lookupKey_setKey]

theorem lookup_addUniversalKeys_height (t : LabelTemplate) (request : Request)
    (now : DateTime) (c : Ctx) :
    lookupKey (addUniversalKeys t request now c) "height" =
      some (CtxVal.num t.height) := by
  simp [addUniversalKeys, lookupKey_setKey]

theorem basename_no_slash (filename : String) :
    ((basename filename).toList.contains '/') = false := by
  have hlist : (basename filename).toList =
      (filename.toList.reverse.takeWhile (fun c => c != '/')).reverse := rfl
  by_contra h
  have hmem : '/' ∈ (basename filename).toList := by
    have := eq_true_of_ne_false h
    exact (List.elem_iff).mp this
  rw [hlist, List.mem_reverse] at hmem
  have := List.mem_takeWhile_imp hmem
  simp at this

/-! ### Sample data used by the witnesses -/

/-- A concrete part. -/
def samplePart : PartObj :=
  ⟨"Widget", "Widget", "A widget", "IPN-001", "A", "Electronics", "QR-PART", "/part/1/", []⟩

/-- A concrete stock item with quantity 5, IPN IPN-001 and serial 42. -/
def sampleStockItem : StockItemObj :=
  ⟨samplePart, 5, "42", "BC-DATA", "BC-HASH", "QR-STOCK", "/stock/item/1/", []⟩

/-- A concrete request. -/
def sampleRequest : Request :=
  ⟨"alice", "https://inventree.example.com"⟩

/-- A concrete clock reading. -/
def sampleNow : DateTime :=
  ⟨19000, 120⟩

/-- A concrete stock-item label template bound to `sampleStockItem`. -/
def sampleStockItemTemplate : LabelTemplate :=
  ⟨LabelKind.stockItem, "Stock Item Label", "demo", "stockitem.html", true, 50, 20,
   [TemplateToken.text "label_", TemplateToken.var "serial", TemplateToken.text ".pdf"],
   [TemplateToken.text "qty ", TemplateToken.var "quantity"],
   some (ObjectToPrint.stockItem sampleStockItem)⟩

/-- A concrete report plugin that writes one extension key. -/
def samplePlugin : ReportPlugin :=
  ⟨fun _t _obj _req c => setKey c "vendor" (CtxVal.str "acme")⟩

/-! ### Claim theorems -/

/-- Claim C5: for every uploaded filename, `rename_label` stores the file
under the fixed template root `label/template`, joined with the subtype's
subdirectory tag, joined with the base name of the uploaded filename; the
base name contains no path separator, so no directory component of the
input survives, and the four subdirectory tags are `stockitem`,
`stocklocation`, `part` and `buildline`. -/
theorem osJoin_not_slash (a b : String) (h1 : startsWithSlash b = false)
    (h2 : a ≠ "") (h3 : endsWithSlash a = false) :
    osJoin a b = a ++ "/" ++ b := by
  unfold osJoin
  rw [h1, decide_eq_false h2, h3]
  simp

theorem rename_label_strips_directories (k : LabelKind) (filename : String) :
    rename_label k filename =
      "label/template/" ++ k.SUBDIR ++ "/" ++ basename filename ∧
    ((basename filename).toList.contains '/') = false ∧
    LabelKind.stockItem.SUBDIR = "stockitem" ∧
    LabelKind.stockLocation.SUBDIR = "stocklocation" ∧
    LabelKind.part.SUBDIR = "part" ∧
    LabelKind.buildLine.SUBDIR = "buildline" := by
  have hb := basename_no_slash filename
  refine ⟨?_, hb, rfl, rfl, rfl, rfl⟩
  have hstart : startsWithSlash (basename filename) = false := by
    unfold startsWithSlash
    cases hc : (basename filename).toList with
    | nil => rfl
    | cons c rest =>
        show decide (c = '/') = false
        refine decide_eq_false ?_
        intro he
        subst he
        have hmem : (basename filename).toList.contains '/' = true := by
          rw [hc]
          simp [List.contains, List.elem]
        rw [hmem] at hb
        cases hb
  cases k with
  | stockItem =>
      show rename_label LabelKind.stockItem filename = _
      unfold rename_label
      rw [show osJoin (osJoin "label" "template") LabelKind.stockItem.SUBDIR =
        "label/template/stockitem" from by decide]
      rw [osJoin_not_slash _ _ hstart (by decide) (by decide)]
      congr 1
  | stockLocation =>
      show rename_label LabelKind.stockLocation filename = _
      unfold rename_label
      rw [show osJoin (osJoin "label" "template") LabelKind.stockLocation.SUBDIR =
        "label/template/stocklocation" from by decide]
      rw [osJoin_not_slash _ _ hstart (by decide) (by decide)]
      congr 1
  | part =>
      show rename_label LabelKind.part filename = _
      unfold rename_label
      rw [show osJoin (osJoin "label" "template") LabelKind.part.SUBDIR =
        "label/template/part" from by decide]
      rw [osJoin_not_slash _ _ hstart (by decide) (by decide)]
      congr 1
  | buildLine =>
      show rename_label LabelKind.buildLine filename = _
      unfold rename_label
      rw [show osJoin (osJoin "label" "template") LabelKind.buildLine.SUBDIR =
        "label/template/buildline" from by decide]
      rw [osJoin_not_slash _ _ hstart (by decide) (by decide)]
      congr 1

/-- Claim C7: a width or height below 2 fails validation with an error
scoped to that field, and the minimum accepted value for each dimension
is exactly 2 (values at least 2 pass). -/
theorem dimension_minimum_validation (t : LabelTemplate) :
    ("width" ∈ dimensionErrors t ↔ t.width < 2) ∧
    ("height" ∈ dimensionErrors t ↔ t.height < 2) ∧
    (dimensionErrors t = [] ↔ 2 ≤ t.width ∧ 2 ≤ t.height) := by
  unfold dimensionErrors widthValidators heightValidators MinValueValidatorPasses
  by_cases hw : (2 : ℚ) ≤ t.width <;> by_cases hh : (2 : ℚ) ≤ t.height <;>
    simp [hw, hh, not_le] <;> simp_all [not_le]

/-- Claim C8: the label file field accepts exactly the filenames whose
(lower-cased) extension is `html`; in particular `label.html` passes and
`label.txt` is rejected. -/
theorem label_file_extension_validation (f : String) :
    (labelFileValidatorPasses f = true ↔ pyLower (fileExtension f) = "html") ∧
    labelFileValidatorPasses "label.html" = true ∧
    labelFileValidatorPasses "label.txt" = false := by
  refine ⟨?_, by decide, by decide⟩
  unfold labelFileValidatorPasses FileExtensionValidatorPasses
  rw [contains_singleton]
  rw [show (["html"] : List String).isEmpty = false from rfl]
  constructor
  · intro hpass
    refine eq_of_beq ?_
    cases hx : (pyLower (fileExtension f) == "html") with
    | true => rfl
    | false =>
        rw [hx] at hpass
        simp at hpass
  · intro he
    rw [he]
    decide

/-- Claim C9: rendering is deterministic — two `render_as_string` runs on
the same template, bound object, request, plugin registry and clock
reading produce identical output. -/
theorem render_as_string_deterministic (t1 t2 : LabelTemplate) (r1 r2 : Request)
    (n1 n2 : DateTime) (reg1 reg2 : List ReportPlugin)
    (ht : t1 = t2) (hr : r1 = r2) (hn : n1 = n2) (hreg : reg1 = reg2) :
    t1.render_as_string r1 n1 reg1 = t2.render_as_string r2 n2 reg2 := by
  subst ht
  subst hr
  subst hn
  subst hreg
  rfl

/-- Witness for C9: two runs at the sample template, request, clock and
an empty registry agree. -/
theorem render_as_string_deterministic_witness :
    sampleStockItemTemplate.render_as_string sampleRequest sampleNow [] =
      sampleStockItemTemplate.render_as_string sampleRequest sampleNow [] :=
  render_as_string_deterministic sampleStockItemTemplate sampleStockItemTemplate
    sampleRequest sampleRequest sampleNow sampleNow [] [] rfl rfl rfl rfl

/-- Claim C1: for every label template of any of the four subtypes and
every request, the mapping returned by `context` carries the keys `width`
and `height` with the template's configured values; plugins run after
those assignments, so this holds whenever no registered plugin rewrites
those two entries (the spec's own caveat). -/
theorem context_includes_width_height (t : LabelTemplate) (request : Request)
    (now : DateTime) (registry : List ReportPlugin) (c0 : Ctx)
    (h : t.get_context_data request = some c0)
    (hp : ∀ p ∈ registry, PluginPreservesDims p) :
    (t.context request now registry).bind (fun c => lookupKey c "width") =
      some (CtxVal.num t.width) ∧
    (t.context request now registry).bind (fun c => lookupKey c "height") =
      some (CtxVal.num t.height) := by
  have hctx : t.context request now registry =
      some (registry.foldl
        (fun acc plugin => plugin.add_label_context t t.object_to_print request acc)
        (addUniversalKeys t request now c0)) := by
    unfold LabelTemplate.context
    rw [h]
  rw [hctx]
  have hpres := foldl_plugins_preserve t request registry
    (addUniversalKeys t request now c0) hp
  rw [Option.some_bind, Option.some_bind]
  exact ⟨by rw [hpres.1, lookup_addUniversalKeys_width],
    by rw [hpres.2, lookup_addUniversalKeys_height]⟩

/-- Witness for C1: the sample stock-item template, with an empty plugin
registry, yields a context with its configured width 50 and height 20. -/
theorem context_includes_width_height_witness :
    (sampleStockItemTemplate.context sampleRequest sampleNow []).bind
      (fun c => lookupKey c "width") =
        some (CtxVal.num sampleStockItemTemplate.width) ∧
    (sampleStockItemTemplate.context sampleRequest sampleNow []).bind
      (fun c => lookupKey c "height") =
        some (CtxVal.num sampleStockItemTemplate.height) :=
  context_includes_width_height sampleStockItemTemplate sampleRequest sampleNow []
    ((sampleStockItemTemplate.get_context_data sampleRequest).getD []) rfl
    (by intro p hp; exact absurd hp (List.not_mem_nil p))

/-- Claim C2: for a stock-item label bound to a stock item with quantity
5, part IPN IPN-001 and serial 42, `get_context_data` maps `quantity` to
5, `ipn` to IPN-001 and `serial` to 42. -/
theorem stockitem_context_fields (t : LabelTemplate) (request : Request)
    (s : StockItemObj)
    (hkind : t.kind = LabelKind.stockItem)
    (hobj : t.object_to_print = some (ObjectToPrint.stockItem s))
    (hq : s.quantity = 5) (hipn : s.part.IPN = "IPN-001")
    (hser : s.serial = "42") :
    (t.get_context_data request).bind (fun c => lookupKey c "quantity") =
      some (CtxVal.num 5) ∧
    (t.get_context_data request).bind (fun c => lookupKey c "ipn") =
      some (CtxVal.str "IPN-001") ∧
    (t.get_context_data request).bind (fun c => lookupKey c "serial") =
      some (CtxVal.str "42") := by
  have h : t.get_context_data request = some
      [("item", CtxVal.itemVal s),
       ("part", CtxVal.partVal s.part),
       ("name", CtxVal.str s.part.full_name),
       ("ipn", CtxVal.str s.part.IPN),
       ("revision", CtxVal.str s.part.revision),
       ("quantity", CtxVal.num (normalize s.quantity)),
       ("serial", CtxVal.str s.serial),
       ("barcode_data", CtxVal.str s.barcode_data),
       ("barcode_hash", CtxVal.str s.barcode_hash),
       ("qr_data", CtxVal.str s.format_barcode_brief),
       ("qr_url", CtxVal.str (request.build_absolute_uri s.absolute_url)),
       ("tests", CtxVal.mapVal s.testResultMap),
       ("parameters", CtxVal.mapVal s.part.parameters_map)] := by
    unfold LabelTemplate.get_context_data
    rw [hkind, hobj]
  rw [h, Option.some_bind, Option.some_bind, Option.some_bind]
  refine ⟨?_, ?_, ?_⟩
  · simp [lookupKey, normalize, hq]
  · simp [lookupKey, hipn]
  · simp [lookupKey, hser]

/-- Witness for C2 at the concrete sample stock item. -/
theorem stockitem_context_fields_witness :
    (sampleStockItemTemplate.get_context_data sampleRequest).bind
      (fun c => lookupKey c "quantity") = some (CtxVal.num 5) ∧
    (sampleStockItemTemplate.get_context_data sampleRequest).bind
      (fun c => lookupKey c "ipn") = some (CtxVal.str "IPN-001") ∧
    (sampleStockItemTemplate.get_context_data sampleRequest).bind
      (fun c => lookupKey c "serial") = some (CtxVal.str "42") :=
  stockitem_context_fields sampleStockItemTemplate sampleRequest sampleStockItem
    rfl rfl rfl rfl rfl

/-- Claim C3: during context assembly every registered report plugin is
invoked exactly once, in registration order, with the template, the bound
object, the request and the context built so far (entity-specific and
universal keys already placed); dictionary assignment gives
last-writer-wins overwrite semantics. -/
theorem context_plugin_invocation (t : LabelTemplate) (request : Request)
    (now : DateTime) (pre post : List ReportPlugin) (p : ReportPlugin)
    (c0 c : Ctx) (k k2 : String) (v : CtxVal)
    (h : t.get_context_data request = some c0) :
    t.context request now (pre ++ p :: post) =
      some (post.foldl
        (fun acc plugin => plugin.add_label_context t t.object_to_print request acc)
        (p.add_label_context t t.object_to_print request
          (pre.foldl
            (fun acc plugin =>
              plugin.add_label_context t t.object_to_print request acc)
            (addUniversalKeys t request now c0)))) ∧
    lookupKey (setKey c k v) k2 = if k2 = k then some v else lookupKey c k2 := by
  constructor
  · unfold LabelTemplate.context
    rw [h]
    show some (List.foldl
      (fun acc plugin => plugin.add_label_context t t.object_to_print request acc)
      (addUniversalKeys t request now c0) (pre ++ p :: post)) = _
    rw [List.foldl_append, List.foldl_cons]
  · exact lookupKey_setKey c k k2 v

/-- Witness for C3: one sample plugin between empty registry halves is
applied exactly once to the universal-keys context, and a fresh key set
on the empty dictionary is read back. -/
theorem context_plugin_invocation_witness :
    sampleStockItemTemplate.context sampleRequest sampleNow ([] ++ samplePlugin :: []) =
      some (samplePlugin.add_label_context sampleStockItemTemplate
        sampleStockItemTemplate.object_to_print sampleRequest
        (addUniversalKeys sampleStockItemTemplate sampleRequest sampleNow
          ((sampleStockItemTemplate.get_context_data sampleRequest).getD []))) ∧
    lookupKey (setKey [] "vendor" (CtxVal.str "acme")) "vendor" =
      some (CtxVal.str "acme") :=
  context_plugin_invocation sampleStockItemTemplate sampleRequest sampleNow
    [] [] samplePlugin
    ((sampleStockItemTemplate.get_context_data sampleRequest).getD [])
    [] "vendor" "vendor" (CtxVal.str "acme") rfl

/-- Claim C4: `generate_filename` renders the stored filename pattern
against exactly the context mapping produced by `context` (plugins
included), and a pattern variable that is not a key of that mapping
contributes the empty string instead of raising. -/
theorem generate_filename_renders_context (t : LabelTemplate) (request : Request)
    (now : DateTime) (registry : List ReportPlugin) (c : Ctx)
    (pre post : List TemplateToken) (v : String)
    (h : t.context request now registry = some c)
    (hv : lookupKey c v = none) :
    t.generate_filename request now registry =
      some (renderTemplate t.filename_pattern c) ∧
    renderTemplate (pre ++ TemplateToken.var v :: post) c =
      renderTemplate pre c ++ renderTemplate post c := by
  constructor
  · unfold LabelTemplate.generate_filename
    rw [h]
    rfl
  · rw [renderTemplate_append]
    show renderTemplate pre c ++ (renderToken c (TemplateToken.var v) ++ renderTemplate post c) =
      renderTemplate pre c ++ renderTemplate post c
    have hz : renderToken c (TemplateToken.var v) = "" := by
      show (match lookupKey c v with
        | some val => val.toDisplay
        | none => "") = ""
      rw [hv]
    rw [hz]
    rfl

/-- Witness for C4: the sample template's filename pattern renders against
its own context (no plugins), and the undefined variable `missing`
renders as blank. -/
theorem generate_filename_renders_context_witness :
    sampleStockItemTemplate.generate_filename sampleRequest sampleNow [] =
      some (renderTemplate sampleStockItemTemplate.filename_pattern
        (addUniversalKeys sampleStockItemTemplate sampleRequest sampleNow
          ((sampleStockItemTemplate.get_context_data sampleRequest).getD []))) ∧
    renderTemplate
        ([TemplateToken.text "label_"] ++ TemplateToken.var "missing" ::
          [TemplateToken.text ".pdf"])
        (addUniversalKeys sampleStockItemTemplate sampleRequest sampleNow
          ((sampleStockItemTemplate.get_context_data sampleRequest).getD [])) =
      renderTemplate [TemplateToken.text "label_"]
        (addUniversalKeys sampleStockItemTemplate sampleRequest sampleNow
          ((sampleStockItemTemplate.get_context_data sampleRequest).getD [])) ++
      renderTemplate [TemplateToken.text ".pdf"]
        (addUniversalKeys sampleStockItemTemplate sampleRequest sampleNow
          ((sampleStockItemTemplate.get_context_data sampleRequest).getD [])) :=
  generate_filename_renders_context sampleStockItemTemplate sampleRequest sampleNow
    [] (addUniversalKeys sampleStockItemTemplate sampleRequest sampleNow
      ((sampleStockItemTemplate.get_context_data sampleRequest).getD []))
    [TemplateToken.text "label_"] [TemplateToken.text ".pdf"] "missing" rfl (by decide)

/-- Claim C6: a filter string made solely of well-formed key=value pairs
with valid keys passes validation and is returned unchanged; a filter
string containing an invalid key fails with an error naming an invalid
key of the string. -/
theorem filter_validation_ok_and_error (fields : List String)
    (sGood sBad : String) (k : String)
    (h1 : (pySplit ',' sGood).all (fun g => (badKeyOf fields g).isNone) = true)
    (h2 : (pySplit ',' sBad).findSome? (badKeyOf fields) = some k) :
    validateFilterString fields sGood = Except.ok sGood ∧
    validateFilterString fields sBad = Except.error k ∧
    ∃ g, g ∈ pySplit ',' sBad ∧ badKeyOf fields g = some k := by
  refine ⟨?_, ?_, exists_of_findSome?_eq_some h2⟩
  · have hnone : (pySplit ',' sGood).findSome? (badKeyOf fields) = none := by
      refine findSome?_eq_none_of_all_none _ _ (fun g hg => ?_)
      have := (List.all_eq_true.mp h1) g hg
      exact Option.isNone_iff_eq_none.mp this
    unfold validateFilterString
    rw [hnone]
  · unfold validateFilterString
    rw [h2]

/-- Witness for C6: for the stock-item field set, `part=1, quantity=5`
passes unchanged while `part=1, stock=2` fails naming `stock`. -/
theorem filter_validation_ok_and_error_witness :
    validate_stock_item_filters "part=1, quantity=5" =
      Except.ok "part=1, quantity=5" ∧
    validate_stock_item_filters "part=1, stock=2" = Except.error "stock" ∧
    ∃ g, g ∈ pySplit ',' "part=1, stock=2" ∧
      badKeyOf stockItemFields g = some "stock" :=
  filter_validation_ok_and_error stockItemFields "part=1, quantity=5"
    "part=1, stock=2" "stock" (by decide) (by decide)

/-- Claim C10: the seven universal keys are assigned after the subtype
hook runs, so whatever mapping the hook supplies, the pre-plugin context
holds the universal values under all seven keys, and `context` hands
exactly that mapping to the plugin fold. -/
theorem universal_keys_after_hook (t : LabelTemplate) (request : Request)
    (now : DateTime) (c0 : Ctx) (registry : List ReportPlugin) :
    lookupKey (addUniversalKeys t request now c0) "base_url" =
      some (CtxVal.str (get_base_url request)) ∧
    lookupKey (addUniversalKeys t request now c0) "date" =
      some (CtxVal.dateVal now.date) ∧
    lookupKey (addUniversalKeys t request now c0) "datetime" =
      some (CtxVal.datetimeVal now) ∧
    lookupKey (addUniversalKeys t request now c0) "request" =
      some (CtxVal.requestVal request) ∧
    lookupKey (addUniversalKeys t request now c0) "user" =
      some (CtxVal.userVal request.user) ∧
    lookupKey (addUniversalKeys t request now c0) "width" =
      some (CtxVal.num t.width) ∧
    lookupKey (addUniversalKeys t request now c0) "height" =
      some (CtxVal.num t.height) ∧
    t.context request now registry =
      (t.get_context_data request).map (fun c =>
        registry.foldl
          (fun acc plugin => plugin.add_label_context t t.object_to_print request acc)
          (addUniversalKeys t request now c)) := by
  refine ⟨lookup_addUniversalKeys_base_url t request now c0,
    lookup_addUniversalKeys_date t request now c0,
    lookup_addUniversalKeys_datetime t request now c0,
    lookup_addUniversalKeys_request t request now c0,
    lookup_addUniversalKeys_user t request now c0,
    lookup_addUniversalKeys_width t request now c0,
    lookup_addUniversalKeys_height t request now c0, ?_⟩
  unfold LabelTemplate.context
  cases t.get_context_data request with
  | none => rfl
  | some c => rfl

end LabelModels
